import Mathlib

set_option maxHeartbeats 1000000

noncomputable section

/-! Shallow embedding of the physics core of the vibe-space-program repository:
`src/celestialBody.js` and `src/rocket.js`.  JavaScript numbers are modelled as
real numbers (`ℝ`); `THREE.Vector3` as a record of three reals.  Rendering-only
state (meshes, the trail ring buffer, the thrust-indicator opacity, the mesh
rotation set at the end of `Rocket.update`) is omitted: per the repository spec
it lies outside the physics core and no physics branch reads it back.  The
`window.dispatchEvent` notifications are modelled as `Bool` outputs where a
claim needs them ("orbitAchieved").  For the one claim about the degenerate
distance-zero gravity query, JavaScript IEEE-754 value classes (finite /
Infinity / -Infinity / NaN) are modelled explicitly by `JSNum` below, because
real-number division (`x / 0 = 0` in Lean) cannot express that behaviour. -/

/-- Embedding of `THREE.Vector3` restricted to the operations the core uses. -/
structure Vec3 where
  x : ℝ
  y : ℝ
  z : ℝ

/-- Zero vector, `new THREE.Vector3(0, 0, 0)`. -/
def Vec3.zero : Vec3 := ⟨0, 0, 0⟩

/-- Componentwise `Vector3.add`. -/
def Vec3.add (a b : Vec3) : Vec3 := ⟨a.x + b.x, a.y + b.y, a.z + b.z⟩

/-- Componentwise `Vector3.sub`. -/
def Vec3.sub (a b : Vec3) : Vec3 := ⟨a.x - b.x, a.y - b.y, a.z - b.z⟩

/-- Scalar multiplication, `Vector3.multiplyScalar`. -/
def Vec3.smul (c : ℝ) (v : Vec3) : Vec3 := ⟨c * v.x, c * v.y, c * v.z⟩

/-- Squared length, `Vector3.lengthSq`. -/
def Vec3.lengthSq (v : Vec3) : ℝ := v.x * v.x + v.y * v.y + v.z * v.z

/-- Euclidean length, `Vector3.length`. -/
def Vec3.length (v : Vec3) : ℝ := Real.sqrt v.lengthSq

/-- Dot product, `Vector3.dot`. -/
def Vec3.dot (a b : Vec3) : ℝ := a.x * b.x + a.y * b.y + a.z * b.z

/-- Embedding of `Vector3.normalize`, which is
`divideScalar(this.length() || 1)`: a zero length (falsy in JavaScript) is
replaced by `1`, and `divideScalar(s)` is `multiplyScalar(1 / s)`. -/
def Vec3.normalize (v : Vec3) : Vec3 :=
  Vec3.smul (1 / (if v.length = 0 then 1 else v.length)) v

/-- Embedding of `Vector3.applyAxisAngle` specialised to the fixed axis
`(0, 0, 1)` used at the single call site (`Rocket.rotate`): a plane rotation of
the x/y components by `angle`, z unchanged. -/
def Vec3.applyAxisAngleZ (angle : ℝ) (v : Vec3) : Vec3 :=
  ⟨v.x * Real.cos angle - v.y * Real.sin angle,
   v.x * Real.sin angle + v.y * Real.cos angle,
   v.z⟩

/-- Embedding of the physics-relevant fields of `CelestialBody`
(`src/celestialBody.js`, constructor).  Rendering fields (colors, textures,
meshes, orbit-path line) and the body's own orbital-motion fields are omitted:
no claim touches `CelestialBody.update`. -/
structure CelestialBody where
  name : String
  radius : ℝ
  mass : ℝ
  position : Vec3
  hasAtmosphere : Bool

/-- Game-scaled mass by body name, the ternary
`name === "Earth" ? 3 : name === "Moon" ? 0.5 : 1` that appears verbatim in
`CelestialBody.calculateGravityForce` (line 202) and in
`Rocket.calculateOrbitPeriod` (line 371). -/
def scaledMassOfName (name : String) : ℝ :=
  if name = "Earth" then 3 else if name = "Moon" then 0.5 else 1

/-- Embedding of `CelestialBody.calculateGravityForce` (lines 184-218) over the
reals.  Note that for `distance ≠ 0` this agrees with the JavaScript float
computation symbolically; the `distance = 0` degenerate case is treated
separately with JavaScript value-class semantics by
`CelestialBodyJS.calculateGravityForce` below, since Lean's `x / 0 = 0`
convention differs from IEEE division. -/
def CelestialBody.calculateGravityForce (b : CelestialBody) (objectPosition : Vec3)
    (objectMass : ℝ) : Vec3 :=
  let direction := Vec3.sub b.position objectPosition
  let distance := direction.length
  let directionN := direction.normalize
  let G : ℝ := 0.3
  let scaledMass := scaledMassOfName b.name
  let forceMagnitude := G * scaledMass * objectMass / (distance * distance)
  let altitude := distance - b.radius
  let gravityMultiplier : ℝ :=
    if altitude < 1.0 then 1.0 + (1.0 - altitude) * 0.5 else 1.0
  Vec3.smul (forceMagnitude * gravityMultiplier) directionN

/-- Embedding of `CelestialBody.checkCollision` (lines 221-228). -/
def CelestialBody.checkCollision (b : CelestialBody) (objectPosition : Vec3)
    (objectRadius : ℝ) : Prop :=
  (Vec3.sub objectPosition b.position).length < b.radius + objectRadius

instance (b : CelestialBody) (p : Vec3) (rad : ℝ) :
    Decidable (b.checkCollision p rad) :=
  inferInstanceAs (Decidable ((Vec3.sub p b.position).length < b.radius + rad))

/-- Embedding of the physics-relevant mutable state of `Rocket`
(`src/rocket.js`).  The `celestialBodies` list the JavaScript object holds is
passed explicitly to each operation instead (the list is never mutated by the
rocket).  Mesh, trail-buffer and indicator fields are omitted as rendering
state. -/
structure Rocket where
  position : Vec3
  velocity : Vec3
  force : Vec3
  thrustDirection : Vec3
  thrustMagnitude : ℝ
  mass : ℝ
  earthRadius : ℝ
  earthMass : ℝ
  G : ℝ
  isInOrbit : Bool
  orbitPeriod : ℝ
  orbitDistance : ℝ
  orbitSpeed : ℝ
  maxFuel : ℝ
  fuel : ℝ
  fuelConsumptionRate : ℝ
  outOfFuel : Bool
  dragCoefficient : ℝ
  atmosphereHeight : ℝ
  hasStarted : Bool
  hasCrashed : Bool
  crashCount : ℕ
  crashVelocityThreshold : ℝ
  lastCollisionTime : ℝ
  collisionCooldown : ℝ
  maxCrashCount : ℕ
  orbitFeedbackTriggered : Bool
  crashEffectTriggered : Bool

/-- Embedding of `Rocket.initializeRocket` (lines 10-128): the fresh state for
a given body configuration.  `primaryBody` is `celestialBodies[0]` when the
list is nonempty.  Field values follow the source assignments literally
(`fuel = maxFuel = 100`, etc.). -/
def initializeRocket (bodies : List CelestialBody) : Rocket :=
  let primaryBody := bodies.head?
  let earthRadius : ℝ := match primaryBody with
    | some b => b.radius
    | none => 2
  let startPosition : Vec3 := match primaryBody with
    | some b => Vec3.add ⟨0, b.radius + 0.1, 0⟩ b.position
    | none => ⟨0, earthRadius + 0.1, 0⟩
  let thrustDirection : Vec3 := match primaryBody with
    | some b => (Vec3.sub startPosition b.position).normalize
    | none => ⟨0, 1, 0⟩
  { position := startPosition
    velocity := Vec3.zero
    force := Vec3.zero
    thrustDirection := thrustDirection
    thrustMagnitude := 0
    mass := 2
    earthRadius := earthRadius
    earthMass := 3
    G := 0.3
    isInOrbit := false
    orbitPeriod := 0
    orbitDistance := 0
    orbitSpeed := 0
    maxFuel := 100
    fuel := 100
    fuelConsumptionRate := 7
    outOfFuel := false
    dragCoefficient := 0.005
    atmosphereHeight := 3.0
    hasStarted := false
    hasCrashed := false
    crashCount := 0
    crashVelocityThreshold := 0.5
    lastCollisionTime := 0
    collisionCooldown := 0.1
    maxCrashCount := 1
    orbitFeedbackTriggered := false
    crashEffectTriggered := false }

/-- The `Rocket` constructor (lines 4-7): it stores the body list and calls
`initializeRocket`. -/
def Rocket.new (bodies : List CelestialBody) : Rocket :=
  initializeRocket bodies

/-- Embedding of `Rocket.reset` (lines 632-634): it calls `initializeRocket`
over the stored body configuration, ignoring the current state `r`. -/
def Rocket.reset (bodies : List CelestialBody) (_r : Rocket) : Rocket :=
  initializeRocket bodies

/-- Embedding of `Rocket.consumeFuel` (lines 283-297). -/
def Rocket.consumeFuel (deltaTime : ℝ) (r : Rocket) : Rocket :=
  if 0 < r.thrustMagnitude ∧ 0 < r.fuel then
    let fuelConsumed := r.fuelConsumptionRate * r.thrustMagnitude * deltaTime
    let fuel1 := max 0 (r.fuel - fuelConsumed)
    if fuel1 ≤ 0 then { r with fuel := 0, outOfFuel := true }
    else { r with fuel := fuel1 }
  else r

/-- Embedding of `Rocket.applyGravity` (lines 130-178).  The multi-body branch
sums the force of every body within `20 ×` its radius; the `else` branch is the
legacy single-Earth fallback used when the body list is empty. -/
def Rocket.applyGravity (bodies : List CelestialBody) (r : Rocket) : Rocket :=
  if r.hasStarted = false ∨ r.hasCrashed = true then r
  else if bodies.isEmpty = true then
    let G := r.G
    let M := r.earthMass
    let rr := r.position.length
    let altitude := rr - r.earthRadius
    let gravityMultiplier : ℝ :=
      if altitude < 1.0 then 1.0 + (1.0 - altitude) * 0.5 else 1.0
    let directionToEarth := (Vec3.smul (-1) r.position).normalize
    let gravityMagnitude := G * M * r.mass / (rr * rr) * gravityMultiplier
    { r with force := Vec3.add r.force (Vec3.smul gravityMagnitude directionToEarth) }
  else
    let newForce := bodies.foldl
      (fun f body =>
        let distance := (Vec3.sub r.position body.position).length
        if distance < body.radius * 20 then
          Vec3.add f (body.calculateGravityForce r.position r.mass)
        else f)
      r.force
    { r with force := newForce }

/-- Embedding of the body loop of `Rocket.applyDrag` (lines 185-223), threading
the accumulated force.  The loop skips bodies without atmosphere, and `break`s
after the first body whose atmosphere (altitude below the local constant `3.0`)
contains the rocket — whether or not the velocity guard let it add a force. -/
def Rocket.applyDragLoop (r : Rocket) (f : Vec3) : List CelestialBody → Vec3
  | [] => f
  | body :: rest =>
    if body.hasAtmosphere = true then
      let distance := (Vec3.sub r.position body.position).length
      let altitude := distance - body.radius
      if altitude < 3.0 then
        let scaleHeight := 3.0 / 3
        let atmosphereDensity := Real.exp (-altitude / scaleHeight)
        let dragMagnitude := r.dragCoefficient * atmosphereDensity * r.velocity.lengthSq
        if r.velocity.lengthSq > 0.0001 then
          Vec3.add f (Vec3.smul (-dragMagnitude) r.velocity.normalize)
        else f
      else Rocket.applyDragLoop r f rest
    else Rocket.applyDragLoop r f rest

/-- Embedding of `Rocket.applyDrag` (lines 180-249); the `else` branch is the
single-Earth fallback for an empty body list. -/
def Rocket.applyDrag (bodies : List CelestialBody) (r : Rocket) : Rocket :=
  if r.hasStarted = false ∨ r.hasCrashed = true then r
  else if bodies.isEmpty = true then
    let altitude := r.position.length - r.earthRadius
    if altitude < r.atmosphereHeight then
      let scaleHeight := r.atmosphereHeight / 3
      let atmosphereDensity := Real.exp (-altitude / scaleHeight)
      let dragMagnitude := r.dragCoefficient * atmosphereDensity * r.velocity.lengthSq
      if r.velocity.lengthSq > 0.0001 then
        { r with force := Vec3.add r.force (Vec3.smul (-dragMagnitude) r.velocity.normalize) }
      else r
    else r
  else { r with force := Rocket.applyDragLoop r r.force bodies }

/-- Embedding of `Rocket.applyThrust` (lines 251-281).  The thrust-indicator
opacity writes are rendering-only and omitted. -/
def Rocket.applyThrust (r : Rocket) : Rocket :=
  if r.hasCrashed = true ∨ r.outOfFuel = true then r
  else if 0 < r.thrustMagnitude ∧ 0 < r.fuel then
    let r1 := { r with force := Vec3.add r.force (Vec3.smul r.thrustMagnitude r.thrustDirection) }
    if r1.hasStarted = false then
      { r1 with hasStarted := true,
                velocity := Vec3.add r1.velocity (Vec3.smul 0.05 r1.thrustDirection) }
    else r1
  else r

/-- First-strictly-closer scan of `Rocket.calculateOrbitPeriod` (lines 337-353):
`minDistance` starts at `Infinity`, so the first body always becomes the
candidate, and a later body replaces it only when strictly closer. -/
def scanClosest (p : Vec3) (bodies : List CelestialBody) : Option (CelestialBody × ℝ) :=
  bodies.foldl
    (fun acc body =>
      let distance := (Vec3.sub p body.position).length
      match acc with
      | none => some (body, distance)
      | some best => if distance < best.snd then some (body, distance) else acc)
    none

/-- The not-in-orbit outcome of `Rocket.calculateOrbitPeriod` (lines 423-427):
clears `isInOrbit`, `orbitPeriod` and the one-shot trigger flag; no event. -/
def notInOrbit (r : Rocket) : Rocket × Bool :=
  ({ r with isInOrbit := false, orbitPeriod := 0, orbitFeedbackTriggered := false }, false)

/-- Embedding of `Rocket.calculateOrbitPeriod` (lines 336-428).  The returned
`Bool` records whether the `"orbitAchieved"` event was dispatched this call.
When the body list is empty, `minDistance` stays `Infinity` in JavaScript, so
`escapeVelocity = sqrt(2GM/Infinity) = 0`, `maxSpeed = 0`, and the speed test
`speed < maxSpeed` fails: the call takes the not-in-orbit path, which the
`none` case encodes directly. -/
def Rocket.calculateOrbitPeriod (bodies : List CelestialBody) (r : Rocket) :
    Rocket × Bool :=
  match scanClosest r.position bodies with
  | none => notInOrbit r
  | some (closestBody, minDistance) =>
    let altitude := minDistance - closestBody.radius
    let speed := r.velocity.length
    let G := r.G
    let M := scaledMassOfName closestBody.name
    let escapeVelocity := Real.sqrt (2 * G * M / minDistance)
    let circularOrbitVelocity := Real.sqrt (G * M / minDistance)
    let minAltitude : ℝ := if closestBody.name = "Earth" then 2.0 else 1.0
    let minSpeed := circularOrbitVelocity * 0.8
    let maxSpeed := escapeVelocity * 0.9
    if altitude > minAltitude ∧ speed > minSpeed ∧ speed < maxSpeed then
      let positionNorm := (Vec3.sub r.position closestBody.position).normalize
      let velocityNorm := r.velocity.normalize
      let dotProduct := Vec3.dot positionNorm velocityNorm
      if |dotProduct| < 0.5 then
        let semiMajorAxis := minDistance
        let orbitalPeriod :=
          Real.sqrt (4 * Real.pi * Real.pi / (G * M) * semiMajorAxis ^ 3)
        let fired := !r.orbitFeedbackTriggered
        ({ r with isInOrbit := true, orbitPeriod := orbitalPeriod,
                  orbitFeedbackTriggered := true }, fired)
      else notInOrbit r
    else notInOrbit r

/-- Embedding of the multi-body collision loop inside `Rocket.update`
(lines 475-529).  Returns `(state, crashReturn, collisionDetected)`:
`crashReturn` means the source hit the fatal-crash `return` (skipping the rest
of `update`); `collisionDetected` mirrors the local flag of the same name.
In the gentle-touchdown branch the source mutates `normal` in place:
`normal.multiplyScalar(body.radius + 0.1).add(body.position)` scales and
shifts the very vector later used for the normal-velocity projection, so the
projection uses that scaled-and-shifted vector, reproduced here faithfully. -/
def Rocket.collideScan (r : Rocket) : List CelestialBody → Rocket × Bool × Bool
  | [] => (r, false, false)
  | body :: rest =>
    if body.checkCollision r.position 0.1 then
      let r1 := { r with lastCollisionTime := 0 }
      let impactVelocity := r1.velocity.length
      if (0.3 : ℝ) < impactVelocity ∧ r1.hasStarted = true then
        ({ r1 with hasCrashed := true, crashEffectTriggered := true }, true, true)
      else
        let normal0 := (Vec3.sub r1.position body.position).normalize
        let normal1 := Vec3.add (Vec3.smul (body.radius + 0.1) normal0) body.position
        let r2 := { r1 with position := normal1 }
        let normalVelocity := Vec3.smul (Vec3.dot r2.velocity normal1) normal1
        let r3 := { r2 with velocity := Vec3.smul 0.95 (Vec3.sub r2.velocity normalVelocity) }
        (r3, false, true)
    else Rocket.collideScan r rest

/-- The multi-body collision block of `Rocket.update` (lines 472-529) followed
by the per-tick orbit reclassification (line 594): resolve at most one
collision via `collideScan`; a fatal crash returns at once (skipping the orbit
reclassification, as the source's early `return` does); otherwise clear
`crashCount` when nothing collided and reclassify the orbit. -/
def Rocket.resolveAndClassify (bodies : List CelestialBody) (r6 : Rocket) : Rocket :=
  match Rocket.collideScan r6 bodies with
  | (rc, true, _) => rc
  | (rc, false, detected) =>
    let rc1 := if detected = true then rc else { rc with crashCount := 0 }
    (Rocket.calculateOrbitPeriod bodies rc1).1

/-- The single-Earth fallback collision block of `Rocket.update`
(lines 530-585) followed by the orbit reclassification, used when the body
list is empty.  As in `collideScan`, the gentle-touchdown branch reuses the
in-place-mutated `normal` vector (`normal.multiplyScalar(this.earthRadius +
0.1)`) for the normal-velocity projection. -/
def Rocket.resolveAndClassifyFallback (bodies : List CelestialBody) (r6 : Rocket) : Rocket :=
  if r6.position.length < r6.earthRadius then
    let r7 := { r6 with lastCollisionTime := 0 }
    if (0.3 : ℝ) < r7.velocity.length ∧ r7.hasStarted = true then
      { r7 with hasCrashed := true, crashEffectTriggered := true }
    else
      let normal0 := r7.position.normalize
      let normal1 := Vec3.smul (r7.earthRadius + 0.1) normal0
      let r8 := { r7 with position := normal1 }
      let normalVelocity := Vec3.smul (Vec3.dot r8.velocity normal1) normal1
      let r9 := { r8 with velocity := Vec3.smul 0.95 (Vec3.sub r8.velocity normalVelocity) }
      (Rocket.calculateOrbitPeriod bodies r9).1
  else
    let r7 := { r6 with crashCount := 0 }
    (Rocket.calculateOrbitPeriod bodies r7).1

/-- The `if (this.hasStarted)` block of `Rocket.update` (lines 454-595):
semi-implicit Euler integration of velocity then position, cooldown advance,
then — once the cooldown has elapsed — collision resolution (multi-body or
single-Earth fallback) and orbit reclassification.  The `isFinite` recovery
check is a no-op over the reals (every real is finite) and is omitted. -/
def Rocket.updateStarted (bodies : List CelestialBody) (deltaTime : ℝ) (r5 : Rocket) : Rocket :=
  let acceleration := Vec3.smul (1 / r5.mass) r5.force
  let velocity1 := Vec3.add r5.velocity (Vec3.smul deltaTime acceleration)
  let position1 := Vec3.add r5.position (Vec3.smul deltaTime velocity1)
  let r6 := { r5 with velocity := velocity1, position := position1,
                      lastCollisionTime := r5.lastCollisionTime + deltaTime }
  if r6.collisionCooldown < r6.lastCollisionTime then
    if bodies.isEmpty = true then Rocket.resolveAndClassifyFallback bodies r6
    else Rocket.resolveAndClassify bodies r6
  else
    (Rocket.calculateOrbitPeriod bodies r6).1

/-- Embedding of `Rocket.update` (lines 441-601).  Order of effects follows the
source: early return when crashed; consume fuel; zero the force accumulator;
gravity; drag; thrust; then, only when `hasStarted`, the integration /
collision / orbit phase `updateStarted`.  The final mesh-orientation write is
rendering-only and omitted. -/
def Rocket.update (bodies : List CelestialBody) (deltaTime : ℝ) (r : Rocket) : Rocket :=
  if r.hasCrashed = true then r
  else
    let r1 := Rocket.consumeFuel deltaTime r
    let r2 := { r1 with force := Vec3.zero }
    let r3 := Rocket.applyGravity bodies r2
    let r4 := Rocket.applyDrag bodies r3
    let r5 := Rocket.applyThrust r4
    if r5.hasStarted = true then Rocket.updateStarted bodies deltaTime r5
    else r5

/-- A sequence of fixed-timestep ticks: `update` folded over a list of `dt`s. -/
def Rocket.updateRun (bodies : List CelestialBody) (dts : List ℝ) (r : Rocket) : Rocket :=
  dts.foldl (fun s dt => Rocket.update bodies dt s) r

/-- Embedding of `Rocket.setThrustMagnitude` (lines 603-610): forced to `0`
when crashed or out of fuel, otherwise the supplied value is stored verbatim
(the source performs no range clamping). -/
def Rocket.setThrustMagnitude (mag : ℝ) (r : Rocket) : Rocket :=
  if r.hasCrashed = true ∨ r.outOfFuel = true then { r with thrustMagnitude := 0 }
  else { r with thrustMagnitude := mag }

/-- Embedding of `Rocket.rotate` (lines 612-624): no-op while crashed,
otherwise rotate the thrust direction about the z axis and re-normalize. -/
def Rocket.rotate (angle : ℝ) (r : Rocket) : Rocket :=
  if r.hasCrashed = true then r
  else { r with thrustDirection := (Vec3.applyAxisAngleZ angle r.thrustDirection).normalize }

/-- Embedding of `Rocket.refillFuel` (lines 662-666); `outOfFuel` is recomputed
as `fuel <= 0` after clamping to `maxFuel`. -/
def Rocket.refillFuel (amount : ℝ) (r : Rocket) : Rocket :=
  let fuel1 := min r.maxFuel (r.fuel + amount)
  { r with fuel := fuel1, outOfFuel := if fuel1 ≤ 0 then true else false }

/-- Embedding of `Rocket.recoverFromCrash` (lines 669-679): clears the crash
flags, zeroes velocity, then calls `refillFuel()` with its default argument
`maxFuel`. -/
def Rocket.recoverFromCrash (r : Rocket) : Rocket :=
  Rocket.refillFuel r.maxFuel
    { r with hasCrashed := false, crashCount := 0, crashEffectTriggered := false,
             velocity := Vec3.zero }

/-- Specification-side characterisation of the body the drag loop settles on:
the first body in iteration order that has an atmosphere and whose atmosphere
(altitude below the loop's local constant `3.0`) contains the rocket.  Used to
state the amended form of the drag-source claim. -/
def firstDragBody (r : Rocket) : List CelestialBody → Option CelestialBody
  | [] => none
  | body :: rest =>
    if body.hasAtmosphere = true ∧ (Vec3.sub r.position body.position).length - body.radius < 3.0 then
      some body
    else firstDragBody r rest

/-- The drag-force contribution of a single body, as computed inside the loop
of `Rocket.applyDrag` (zero when the near-zero-velocity guard suppresses it). -/
def Rocket.dragForceFrom (r : Rocket) (body : CelestialBody) : Vec3 :=
  let altitude := (Vec3.sub r.position body.position).length - body.radius
  let atmosphereDensity := Real.exp (-altitude / (3.0 / 3))
  let dragMagnitude := r.dragCoefficient * atmosphereDensity * r.velocity.lengthSq
  if r.velocity.lengthSq > 0.0001 then Vec3.smul (-dragMagnitude) r.velocity.normalize
  else Vec3.zero

/-! JavaScript IEEE-754 value-class model, used only for the degenerate
distance-zero gravity query.  A JavaScript number is a finite double (held here
as an exact real — rounding and overflow are not reached by the traced
computation), `Infinity`, `-Infinity`, or `NaN`.  The operation tables below
follow IEEE 754 / the ECMAScript specification for those value classes; the
sign of zero is not modelled (no traced operation distinguishes `+0`/`-0`). -/

/-- A JavaScript number by IEEE value class. -/
inductive JSNum where
  | fin (val : ℝ)
  | inf
  | ninf
  | nan

/-- JavaScript addition on value classes. -/
def JSNum.add : JSNum → JSNum → JSNum
  | fin a, fin b => fin (a + b)
  | fin _, inf => inf
  | inf, fin _ => inf
  | inf, inf => inf
  | fin _, ninf => ninf
  | ninf, fin _ => ninf
  | ninf, ninf => ninf
  | inf, ninf => nan
  | ninf, inf => nan
  | nan, _ => nan
  | _, nan => nan

/-- JavaScript subtraction on value classes. -/
def JSNum.sub : JSNum → JSNum → JSNum
  | fin a, fin b => fin (a - b)
  | fin _, inf => ninf
  | fin _, ninf => inf
  | inf, fin _ => inf
  | inf, ninf => inf
  | inf, inf => nan
  | ninf, fin _ => ninf
  | ninf, inf => ninf
  | ninf, ninf => nan
  | nan, _ => nan
  | _, nan => nan

/-- JavaScript multiplication on value classes; in particular
`0 * Infinity = NaN`. -/
def JSNum.mul : JSNum → JSNum → JSNum
  | fin a, fin b => fin (a * b)
  | fin a, inf => if 0 < a then inf else if a < 0 then ninf else nan
  | inf, fin a => if 0 < a then inf else if a < 0 then ninf else nan
  | fin a, ninf => if 0 < a then ninf else if a < 0 then inf else nan
  | ninf, fin a => if 0 < a then ninf else if a < 0 then inf else nan
  | inf, inf => inf
  | inf, ninf => ninf
  | ninf, inf => ninf
  | ninf, ninf => inf
  | nan, _ => nan
  | _, nan => nan

/-- JavaScript division on value classes; in particular `x / 0 = ±Infinity`
for finite `x ≠ 0` and `0 / 0 = NaN`. -/
def JSNum.div : JSNum → JSNum → JSNum
  | fin a, fin b =>
    if b ≠ 0 then fin (a / b)
    else if 0 < a then inf else if a < 0 then ninf else nan
  | fin _, inf => fin 0
  | fin _, ninf => fin 0
  | inf, fin b => if 0 ≤ b then inf else ninf
  | ninf, fin b => if 0 ≤ b then ninf else inf
  | inf, inf => nan
  | inf, ninf => nan
  | ninf, inf => nan
  | ninf, ninf => nan
  | nan, _ => nan
  | _, nan => nan

/-- JavaScript `<` on value classes: any comparison with `NaN` is false. -/
def JSNum.lt : JSNum → JSNum → Bool
  | fin a, fin b => decide (a < b)
  | fin _, inf => true
  | ninf, fin _ => true
  | ninf, inf => true
  | inf, _ => false
  | fin _, ninf => false
  | ninf, ninf => false
  | nan, _ => false
  | _, nan => false

/-- JavaScript `Math.sqrt` on value classes. -/
def JSNum.sqrt : JSNum → JSNum
  | fin a => if 0 ≤ a then fin (Real.sqrt a) else nan
  | inf => inf
  | ninf => nan
  | nan => nan

/-- JavaScript truthiness of a number: `0` and `NaN` are falsy. -/
def JSNum.truthy : JSNum → Bool
  | fin a => decide (a ≠ 0)
  | nan => false
  | _ => true

/-- JavaScript `a || b` on numbers (as used by `normalize`'s `length() || 1`). -/
def JSNum.orDefault (a b : JSNum) : JSNum :=
  if a.truthy then a else b

/-- A `THREE.Vector3` holding JavaScript value-class numbers. -/
structure JSVec3 where
  x : JSNum
  y : JSNum
  z : JSNum

/-- Componentwise subtraction. -/
def JSVec3.sub (a b : JSVec3) : JSVec3 :=
  ⟨JSNum.sub a.x b.x, JSNum.sub a.y b.y, JSNum.sub a.z b.z⟩

/-- `Vector3.length`: `Math.sqrt(x*x + y*y + z*z)`. -/
def JSVec3.length (v : JSVec3) : JSNum :=
  JSNum.sqrt (JSNum.add (JSNum.add (JSNum.mul v.x v.x) (JSNum.mul v.y v.y)) (JSNum.mul v.z v.z))

/-- `Vector3.multiplyScalar`. -/
def JSVec3.multiplyScalar (v : JSVec3) (s : JSNum) : JSVec3 :=
  ⟨JSNum.mul v.x s, JSNum.mul v.y s, JSNum.mul v.z s⟩

/-- `Vector3.normalize` = `divideScalar(this.length() || 1)` =
`multiplyScalar(1 / (length || 1))`. -/
def JSVec3.normalize (v : JSVec3) : JSVec3 :=
  v.multiplyScalar (JSNum.div (JSNum.fin 1) (JSNum.orDefault v.length (JSNum.fin 1)))

/-- The fields of `CelestialBody` read by `calculateGravityForce`, with the
position held as JavaScript value-class numbers. -/
structure CelestialBodyJS where
  name : String
  radius : ℝ
  position : JSVec3

/-- Embedding of `CelestialBody.calculateGravityForce` (lines 184-218) with
JavaScript number semantics, faithful at `distance = 0` where IEEE division
and `0 * Infinity` matter. -/
def CelestialBodyJS.calculateGravityForce (b : CelestialBodyJS)
    (objectPosition : JSVec3) (objectMass : JSNum) : JSVec3 :=
  let direction := JSVec3.sub b.position objectPosition
  let distance := direction.length
  let directionN := direction.normalize
  let G : JSNum := JSNum.fin 0.3
  let scaledMass : JSNum := JSNum.fin (scaledMassOfName b.name)
  let forceMagnitude :=
    JSNum.div (JSNum.mul (JSNum.mul G scaledMass) objectMass) (JSNum.mul distance distance)
  let altitude := JSNum.sub distance (JSNum.fin b.radius)
  let gravityMultiplier : JSNum :=
    if JSNum.lt altitude (JSNum.fin 1) = true then
      JSNum.add (JSNum.fin 1) (JSNum.mul (JSNum.sub (JSNum.fin 1) altitude) (JSNum.fin 0.5))
    else JSNum.fin 1
  directionN.multiplyScalar (JSNum.mul forceMagnitude gravityMultiplier)

/-! Concrete fixtures used by witnesses and counterexamples. -/

/-- Scenario body: "Earth", radius 2, at the origin, with an atmosphere. -/
def earthBody : CelestialBody :=
  { name := "Earth", radius := 2, mass := 3, position := Vec3.zero, hasAtmosphere := true }

/-- Scenario C state: at distance 6 from `earthBody`, purely tangential
velocity of magnitude `circularOrbitVelocity = sqrt(0.3 * 3 / 6)`. -/
def scenarioCRocket : Rocket :=
  { initializeRocket [earthBody] with
      position := ⟨6, 0, 0⟩
      velocity := ⟨0, Real.sqrt 0.15, 0⟩
      hasStarted := true }

/-- Scenario B state: fuel `0.001`, thrust magnitude `1` (consumption rate is
the initialized `7`). -/
def scenarioBRocket : Rocket :=
  { initializeRocket [earthBody] with fuel := 0.001, thrustMagnitude := 1 }

/-- A crashed state used to witness crash terminality. -/
def crashedRocket : Rocket :=
  { initializeRocket [earthBody] with hasCrashed := true }

/-- First body of the drag counterexample: atmosphere, radius 1, at origin. -/
def bodyA : CelestialBody :=
  { name := "PlanetA", radius := 1, mass := 1, position := Vec3.zero, hasAtmosphere := true }

/-- Second body of the drag counterexample: atmosphere, radius 1, centred at
`(3.5, 0, 0)` — strictly closer to the rocket below than `bodyA`. -/
def bodyB : CelestialBody :=
  { name := "PlanetB", radius := 1, mass := 1, position := ⟨3.5, 0, 0⟩, hasAtmosphere := true }

/-- Drag counterexample state: position `(2.8, 0, 0)` (inside both
atmospheres, distance 2.8 to `bodyA`, 0.7 to `bodyB`), unit velocity. -/
def dragRocket : Rocket :=
  { initializeRocket [bodyA, bodyB] with
      position := ⟨2.8, 0, 0⟩
      velocity := ⟨1, 0, 0⟩
      hasStarted := true }

/-- The Earth fixture for the degenerate gravity query, with a value-class
position. -/
def earthBodyJS : CelestialBodyJS :=
  { name := "Earth", radius := 2,
    position := ⟨JSNum.fin 0, JSNum.fin 0, JSNum.fin 0⟩ }

/-! Helper lemmas about the vector operations. -/

theorem Vec3.add_zero_right (v : Vec3) : Vec3.add v Vec3.zero = v := by
  simp [Vec3.add, Vec3.zero]

theorem Vec3.length_nonneg (v : Vec3) : 0 ≤ v.length :=
  Real.sqrt_nonneg _

theorem Vec3.length_smul (c : ℝ) (v : Vec3) :
    (Vec3.smul c v).length = |c| * v.length := by
  simp only [Vec3.length, Vec3.smul, Vec3.lengthSq]
  rw [show c * v.x * (c * v.x) + c * v.y * (c * v.y) + c * v.z * (c * v.z)
        = (c * c) * (v.x * v.x + v.y * v.y + v.z * v.z) by ring]
  rw [Real.sqrt_mul (mul_self_nonneg c), Real.sqrt_mul_self_eq_abs]

theorem Vec3.normalize_length (v : Vec3) (h : v.length ≠ 0) :
    v.normalize.length = 1 := by
  unfold Vec3.normalize
  rw [if_neg h, Vec3.length_smul]
  have hpos : 0 < v.length := lt_of_le_of_ne (Vec3.length_nonneg v) (Ne.symm h)
  rw [abs_of_pos (by positivity)]
  field_simp

theorem Vec3.length_applyAxisAngleZ (angle : ℝ) (v : Vec3) :
    (Vec3.applyAxisAngleZ angle v).length = v.length := by
  simp only [Vec3.length, Vec3.applyAxisAngleZ, Vec3.lengthSq]
  congr 1
  linear_combination (v.x ^ 2 + v.y ^ 2) * Real.sin_sq_add_cos_sq angle

/-- Length of a concrete vector from the squares of its components. -/
theorem Vec3.length_eval (a b c d : ℝ) (hd : 0 ≤ d)
    (h : a * a + b * b + c * c = d ^ 2) : Vec3.length ⟨a, b, c⟩ = d := by
  unfold Vec3.length Vec3.lengthSq
  rw [show (⟨a, b, c⟩ : Vec3).x * (⟨a, b, c⟩ : Vec3).x
        + (⟨a, b, c⟩ : Vec3).y * (⟨a, b, c⟩ : Vec3).y
        + (⟨a, b, c⟩ : Vec3).z * (⟨a, b, c⟩ : Vec3).z = d ^ 2 from h,
      Real.sqrt_sq hd]

/-! Helper lemmas: no step of `update` other than `consumeFuel` touches the
fuel level. -/

theorem applyGravity_fuel (bodies : List CelestialBody) (r : Rocket) :
    (Rocket.applyGravity bodies r).fuel = r.fuel := by
  unfold Rocket.applyGravity
  dsimp only
  split_ifs <;> rfl

theorem applyDrag_fuel (bodies : List CelestialBody) (r : Rocket) :
    (Rocket.applyDrag bodies r).fuel = r.fuel := by
  unfold Rocket.applyDrag
  dsimp only
  split_ifs <;> rfl

theorem applyThrust_fuel (r : Rocket) :
    (Rocket.applyThrust r).fuel = r.fuel := by
  unfold Rocket.applyThrust
  dsimp only
  split_ifs <;> rfl

theorem calculateOrbitPeriod_fuel (bodies : List CelestialBody) (r : Rocket) :
    ((Rocket.calculateOrbitPeriod bodies r).1).fuel = r.fuel := by
  unfold Rocket.calculateOrbitPeriod
  cases hs : scanClosest r.position bodies with
  | none => simp [notInOrbit]
  | some p =>
    obtain ⟨cb, d⟩ := p
    dsimp only
    split_ifs <;> simp [notInOrbit]

theorem collideScan_fuel (r : Rocket) (bodies : List CelestialBody) :
    ((Rocket.collideScan r bodies).1).fuel = r.fuel := by
  induction bodies with
  | nil => rfl
  | cons b rest ih =>
    unfold Rocket.collideScan
    dsimp only
    split_ifs <;> first | rfl | exact ih

/-- Claim C1 — crash terminality: with `hasCrashed = true`, `update` returns
the state untouched (hence so does any sequence of updates), and
`recoverFromCrash` clears the flag, zeroes velocity and refills the tank to
`maxFuel`. -/
theorem crash_terminality (bodies : List CelestialBody) (dts : List ℝ) (r : Rocket)
    (h : r.hasCrashed = true) (hf : 0 ≤ r.fuel) :
    (∀ dt : ℝ, Rocket.update bodies dt r = r) ∧
    Rocket.updateRun bodies dts r = r ∧
    r.recoverFromCrash.hasCrashed = false ∧
    r.recoverFromCrash.velocity = Vec3.zero ∧
    r.recoverFromCrash.fuel = r.maxFuel := by
  have hupd : ∀ dt : ℝ, Rocket.update bodies dt r = r := by
    intro dt
    unfold Rocket.update
    rw [if_pos h]
  refine ⟨hupd, ?_, rfl, rfl, ?_⟩
  · unfold Rocket.updateRun
    induction dts with
    | nil => rfl
    | cons dt rest ih => rw [List.foldl_cons, hupd dt]; exact ih
  · show min r.maxFuel (r.fuel + r.maxFuel) = r.maxFuel
    exact min_eq_left (le_add_of_nonneg_left hf)

/-- Witness for C1 at a concrete crashed state. -/
theorem crash_terminality_witness :
    Rocket.update [earthBody] (1 / 60) crashedRocket = crashedRocket ∧
    Rocket.updateRun [earthBody] [1 / 60, 1 / 30] crashedRocket = crashedRocket ∧
    crashedRocket.recoverFromCrash.hasCrashed = false ∧
    crashedRocket.recoverFromCrash.velocity = Vec3.zero ∧
    crashedRocket.recoverFromCrash.fuel = crashedRocket.maxFuel := by
  have h := crash_terminality [earthBody] [1 / 60, 1 / 30] crashedRocket rfl
    (by norm_num [crashedRocket, initializeRocket])
  exact ⟨h.1 _, h.2.1, h.2.2.1, h.2.2.2.1, h.2.2.2.2⟩

/-- Claim C8 — idempotent reset: `reset` produces exactly the state of a
freshly constructed rocket over the same body configuration (both delegate to
`initializeRocket`, which reassigns every physics field unconditionally), and
in particular all the listed fields carry their fresh values. -/
theorem reset_idempotent (bodies : List CelestialBody) (r : Rocket) :
    Rocket.reset bodies r = Rocket.new bodies ∧
    (Rocket.reset bodies r).velocity = Vec3.zero ∧
    (Rocket.reset bodies r).thrustMagnitude = 0 ∧
    (Rocket.reset bodies r).fuel = (Rocket.reset bodies r).maxFuel ∧
    (Rocket.reset bodies r).hasStarted = false ∧
    (Rocket.reset bodies r).hasCrashed = false ∧
    (Rocket.reset bodies r).outOfFuel = false ∧
    (Rocket.reset bodies r).isInOrbit = false ∧
    (Rocket.reset bodies r).orbitPeriod = 0 :=
  ⟨rfl, rfl, rfl, rfl, rfl, rfl, rfl, rfl, rfl⟩

/-- Counterexample to claim C9 as stated: `setThrustMagnitude (-5)` on a fresh
(not crashed, fueled) rocket stores `-5` verbatim — the result is **not**
within `[0, thrustPowerMax]`; the source performs no clamping. -/
theorem thrust_clamp_cex :
    ¬ (0 ≤ (Rocket.setThrustMagnitude (-5) (initializeRocket [earthBody])).thrustMagnitude) := by
  have hval : (Rocket.setThrustMagnitude (-5) (initializeRocket [earthBody])).thrustMagnitude
      = -5 := by
    unfold Rocket.setThrustMagnitude
    rw [if_neg (by simp [initializeRocket])]
  rw [hval]
  norm_num

/-- Claim C9, amended: `setThrustMagnitude` never raises; it forces the
magnitude to `0` whenever `hasCrashed` or `outOfFuel` holds and otherwise
stores the caller's value verbatim — out-of-range values are stored, not
clamped; no other field changes. -/
theorem setThrustMagnitude_spec (r : Rocket) (mag : ℝ) :
    Rocket.setThrustMagnitude mag r =
      { r with thrustMagnitude :=
          if r.hasCrashed = true ∨ r.outOfFuel = true then 0 else mag } := by
  unfold Rocket.setThrustMagnitude
  split_ifs <;> rfl

/-- Claim C10 — rotation framing: `rotate` is a no-op on every angle while
crashed; when not crashed it keeps the thrust direction a unit vector. -/
theorem rotate_crash_frame (r : Rocket) (angle : ℝ) :
    (r.hasCrashed = true → Rocket.rotate angle r = r) ∧
    (r.hasCrashed = false → r.thrustDirection.length = 1 →
      (Rocket.rotate angle r).thrustDirection.length = 1) := by
  constructor
  · intro h
    unfold Rocket.rotate
    rw [if_pos h]
  · intro h hu
    unfold Rocket.rotate
    rw [if_neg (by simp [h])]
    show ((Vec3.applyAxisAngleZ angle r.thrustDirection).normalize).length = 1
    apply Vec3.normalize_length
    rw [Vec3.length_applyAxisAngleZ, hu]
    norm_num

/-- Witness for C10: a crashed state is unchanged by `rotate 1`, and rotating
the fresh default state keeps a unit thrust direction. -/
theorem rotate_crash_frame_witness :
    Rocket.rotate 1 crashedRocket = crashedRocket ∧
    (Rocket.rotate 1 (initializeRocket [])).thrustDirection.length = 1 := by
  constructor
  · exact (rotate_crash_frame crashedRocket 1).1 rfl
  · refine (rotate_crash_frame (initializeRocket []) 1).2 rfl ?_
    show Vec3.length ⟨0, 1, 0⟩ = 1
    exact Vec3.length_eval 0 1 0 1 (by norm_num) (by norm_num)

/-- Claim C7 — orbit-achieved edge trigger: after every classification call the
trigger flag equals `isInOrbit` (so any not-in-orbit tick clears it), and the
event fires exactly when the call lands in orbit with the flag previously
clear — hence once per contiguous in-orbit interval, re-armed by any
`isInOrbit = false` tick. -/
theorem orbit_retrigger (bodies : List CelestialBody) (r : Rocket) :
    (Rocket.calculateOrbitPeriod bodies r).1.orbitFeedbackTriggered
      = (Rocket.calculateOrbitPeriod bodies r).1.isInOrbit ∧
    ((Rocket.calculateOrbitPeriod bodies r).2 = true ↔
      ((Rocket.calculateOrbitPeriod bodies r).1.isInOrbit = true ∧
        r.orbitFeedbackTriggered = false)) := by
  unfold Rocket.calculateOrbitPeriod
  cases hs : scanClosest r.position bodies with
  | none => simp [notInOrbit]
  | some p =>
    obtain ⟨cb, d⟩ := p
    dsimp only
    split_ifs <;> simp [notInOrbit]

theorem resolveAndClassify_fuel (bodies : List CelestialBody) (s : Rocket) :
    (Rocket.resolveAndClassify bodies s).fuel = s.fuel := by
  unfold Rocket.resolveAndClassify
  rcases hcs : Rocket.collideScan s bodies with ⟨rc, crash, det⟩
  have hrc : rc.fuel = s.fuel := by
    have h0 := collideScan_fuel s bodies
    rw [hcs] at h0
    exact h0
  cases crash
  · dsimp only
    split_ifs <;> simp [calculateOrbitPeriod_fuel, hrc]
  · exact hrc

theorem resolveAndClassifyFallback_fuel (bodies : List CelestialBody) (s : Rocket) :
    (Rocket.resolveAndClassifyFallback bodies s).fuel = s.fuel := by
  unfold Rocket.resolveAndClassifyFallback
  dsimp only
  split_ifs <;> simp [calculateOrbitPeriod_fuel]

theorem updateStarted_fuel (bodies : List CelestialBody) (dt : ℝ) (s : Rocket) :
    (Rocket.updateStarted bodies dt s).fuel = s.fuel := by
  unfold Rocket.updateStarted
  dsimp only
  split_ifs <;>
    simp [resolveAndClassify_fuel, resolveAndClassifyFallback_fuel, calculateOrbitPeriod_fuel]

/-- Fuel through one full tick: `update` leaves fuel untouched when crashed and
otherwise changes it exactly as `consumeFuel` does — no other phase of the tick
writes the fuel level. -/
theorem update_fuel (bodies : List CelestialBody) (dt : ℝ) (r : Rocket) :
    (Rocket.update bodies dt r).fuel
      = if r.hasCrashed = true then r.fuel else (Rocket.consumeFuel dt r).fuel := by
  by_cases h : r.hasCrashed = true
  · rw [if_pos h]
    unfold Rocket.update
    rw [if_pos h]
  · rw [if_neg h]
    unfold Rocket.update
    rw [if_neg h]
    dsimp only
    have hfuel5 : (Rocket.applyThrust (Rocket.applyDrag bodies
        (Rocket.applyGravity bodies { Rocket.consumeFuel dt r with force := Vec3.zero }))).fuel
        = (Rocket.consumeFuel dt r).fuel := by
      rw [applyThrust_fuel, applyDrag_fuel, applyGravity_fuel]
    split_ifs
    · rw [updateStarted_fuel]
      exact hfuel5
    · exact hfuel5

/-- Claim C2 — fuel bookkeeping: with thrust requested and fuel available,
`consumeFuel` subtracts exactly `fuelConsumptionRate * thrustMagnitude * dt`
clamped at `0`, and `outOfFuel` becomes `true` exactly when the clamped fuel
level reaches `0` (otherwise it is unchanged); the fuel level never increases
during a tick and never becomes negative. -/
theorem fuel_bookkeeping (bodies : List CelestialBody) (dt : ℝ) (r : Rocket)
    (hdt : 0 ≤ dt) (hrate : 0 ≤ r.fuelConsumptionRate) :
    (0 < r.thrustMagnitude → 0 < r.fuel →
      (Rocket.consumeFuel dt r).fuel
          = max 0 (r.fuel - r.fuelConsumptionRate * r.thrustMagnitude * dt) ∧
      ((Rocket.consumeFuel dt r).fuel = 0 → (Rocket.consumeFuel dt r).outOfFuel = true) ∧
      ((Rocket.consumeFuel dt r).fuel ≠ 0 →
        (Rocket.consumeFuel dt r).outOfFuel = r.outOfFuel)) ∧
    (Rocket.consumeFuel dt r).fuel ≤ r.fuel ∧
    (0 ≤ r.fuel → 0 ≤ (Rocket.consumeFuel dt r).fuel) ∧
    (Rocket.update bodies dt r).fuel ≤ r.fuel := by
  have key : (Rocket.consumeFuel dt r).fuel
        = (if 0 < r.thrustMagnitude ∧ 0 < r.fuel
           then max 0 (r.fuel - r.fuelConsumptionRate * r.thrustMagnitude * dt)
           else r.fuel)
      ∧ (Rocket.consumeFuel dt r).outOfFuel
        = (if (0 < r.thrustMagnitude ∧ 0 < r.fuel)
              ∧ max 0 (r.fuel - r.fuelConsumptionRate * r.thrustMagnitude * dt) ≤ 0
           then true else r.outOfFuel) := by
    unfold Rocket.consumeFuel
    dsimp only
    by_cases hb : 0 < r.thrustMagnitude ∧ 0 < r.fuel
    · rw [if_pos hb, if_pos hb]
      by_cases hz : max 0 (r.fuel - r.fuelConsumptionRate * r.thrustMagnitude * dt) ≤ 0
      · rw [if_pos hz, if_pos ⟨hb, hz⟩]
        exact ⟨(le_antisymm hz (le_max_left 0 _)).symm, rfl⟩
      · rw [if_neg hz, if_neg (fun hc => hz hc.2)]
        exact ⟨rfl, rfl⟩
    · rw [if_neg hb, if_neg hb, if_neg (fun hc => hb hc.1)]
      exact ⟨rfl, rfl⟩
  have hle : (Rocket.consumeFuel dt r).fuel ≤ r.fuel := by
    rw [key.1]
    split_ifs with hb
    · refine max_le hb.2.le ?_
      have hcons : 0 ≤ r.fuelConsumptionRate * r.thrustMagnitude * dt :=
        mul_nonneg (mul_nonneg hrate hb.1.le) hdt
      linarith
    · exact le_refl _
  refine ⟨?_, hle, ?_, ?_⟩
  · intro hm hf
    have hfuel : (Rocket.consumeFuel dt r).fuel
        = max 0 (r.fuel - r.fuelConsumptionRate * r.thrustMagnitude * dt) := by
      rw [key.1, if_pos ⟨hm, hf⟩]
    refine ⟨hfuel, ?_, ?_⟩
    · intro h0
      rw [key.2, if_pos ⟨⟨hm, hf⟩, by rw [← hfuel, h0]⟩]
    · intro hne
      have : ¬ max 0 (r.fuel - r.fuelConsumptionRate * r.thrustMagnitude * dt) ≤ 0 := by
        intro hc
        exact hne (by rw [hfuel]; exact le_antisymm hc (le_max_left 0 _))
      rw [key.2, if_neg (fun hc => this hc.2)]
  · intro hf
    rw [key.1]
    split_ifs with hb
    · exact le_max_left 0 _
    · exact hf
  · rw [update_fuel]
    split_ifs with h
    · exact le_refl _
    · exact hle

/-- Witness for C2 at Scenario B of the spec: `fuel = 0.001`,
`thrustMagnitude = 1`, `fuelConsumptionRate = 7`, `dt = 1/60` — one step clamps
the fuel to `0` and sets `outOfFuel`. -/
theorem fuel_bookkeeping_witness :
    (0 : ℝ) ≤ 1 / 60 ∧ (0 : ℝ) ≤ scenarioBRocket.fuelConsumptionRate ∧
    (Rocket.consumeFuel (1 / 60) scenarioBRocket).fuel = 0 ∧
    (Rocket.consumeFuel (1 / 60) scenarioBRocket).outOfFuel = true := by
  have h := fuel_bookkeeping [earthBody] (1 / 60) scenarioBRocket (by norm_num)
    (by norm_num [scenarioBRocket, initializeRocket])
  have h1 := h.1 (by norm_num [scenarioBRocket]) (by norm_num [scenarioBRocket])
  have hfuel : (Rocket.consumeFuel (1 / 60) scenarioBRocket).fuel = 0 := by
    rw [h1.1]
    rw [max_eq_left (by norm_num [scenarioBRocket, initializeRocket])]
  exact ⟨by norm_num, by norm_num [scenarioBRocket, initializeRocket], hfuel, h1.2.1 hfuel⟩

/-- Claim C6 — pre-launch gating: with `hasStarted = false` and zero thrust
request, a tick applies no gravity, drag or thrust force and leaves position,
velocity, fuel and the `hasStarted` flag untouched; when moreover not crashed,
the whole state is unchanged except for the zeroed force accumulator. -/
theorem prelaunch_gating (bodies : List CelestialBody) (dt : ℝ) (r : Rocket)
    (h1 : r.hasStarted = false) (h2 : r.thrustMagnitude = 0) :
    (Rocket.update bodies dt r).position = r.position ∧
    (Rocket.update bodies dt r).velocity = r.velocity ∧
    (Rocket.update bodies dt r).fuel = r.fuel ∧
    (Rocket.update bodies dt r).hasStarted = false ∧
    (r.hasCrashed = false →
      Rocket.update bodies dt r = { r with force := Vec3.zero }) := by
  by_cases hc : r.hasCrashed = true
  · have hupd : Rocket.update bodies dt r = r := by
      unfold Rocket.update
      rw [if_pos hc]
    rw [hupd]
    exact ⟨rfl, rfl, rfl, h1, fun hfalse => by rw [hfalse] at hc; exact absurd hc (by simp)⟩
  · have h3 : r.hasCrashed = false := by
      simp only [Bool.not_eq_true] at hc
      exact hc
    have hcf : Rocket.consumeFuel dt r = r := by
      unfold Rocket.consumeFuel
      rw [if_neg (by rintro ⟨hm, _⟩; rw [h2] at hm; exact lt_irrefl 0 hm)]
    have hg : Rocket.applyGravity bodies { r with force := Vec3.zero }
        = { r with force := Vec3.zero } := by
      unfold Rocket.applyGravity
      rw [if_pos (Or.inl h1)]
    have hd : Rocket.applyDrag bodies { r with force := Vec3.zero }
        = { r with force := Vec3.zero } := by
      unfold Rocket.applyDrag
      rw [if_pos (Or.inl h1)]
    have ht : Rocket.applyThrust { r with force := Vec3.zero }
        = { r with force := Vec3.zero } := by
      unfold Rocket.applyThrust
      by_cases ho : ({ r with force := Vec3.zero } : Rocket).hasCrashed = true
          ∨ ({ r with force := Vec3.zero } : Rocket).outOfFuel = true
      · rw [if_pos ho]
      · rw [if_neg ho, if_neg (by rintro ⟨hm, _⟩; rw [show ({ r with force := Vec3.zero } : Rocket).thrustMagnitude = r.thrustMagnitude from rfl, h2] at hm; exact lt_irrefl 0 hm)]
    have hupd : Rocket.update bodies dt r = { r with force := Vec3.zero } := by
      unfold Rocket.update
      rw [if_neg (by simp [h3])]
      dsimp only
      rw [hcf, hg, hd, ht, if_neg (by simp [h1])]
    rw [hupd]
    exact ⟨rfl, rfl, rfl, h1, fun _ => rfl⟩

/-- Witness for C6 at the fresh default state (no bodies, zero thrust). -/
theorem prelaunch_gating_witness :
    (Rocket.update [] (1 / 60) (initializeRocket [])).position = (initializeRocket []).position ∧
    (Rocket.update [] (1 / 60) (initializeRocket [])).velocity = (initializeRocket []).velocity ∧
    (Rocket.update [] (1 / 60) (initializeRocket [])).fuel = (initializeRocket []).fuel ∧
    (Rocket.update [] (1 / 60) (initializeRocket [])).hasStarted = false ∧
    Rocket.update [] (1 / 60) (initializeRocket [])
      = { initializeRocket [] with force := Vec3.zero } := by
  have h := prelaunch_gating [] (1 / 60) (initializeRocket []) rfl rfl
  exact ⟨h.1, h.2.1, h.2.2.1, h.2.2.2.1, h.2.2.2.2 rfl⟩

/-- The drag loop adds exactly the contribution of the first body in list
order with an atmosphere containing the rocket, and nothing else. -/
theorem applyDragLoop_spec (r : Rocket) (f : Vec3) (bodies : List CelestialBody) :
    Rocket.applyDragLoop r f bodies =
      (match firstDragBody r bodies with
       | none => f
       | some b => Vec3.add f (Rocket.dragForceFrom r b)) := by
  induction bodies with
  | nil => rfl
  | cons b rest ih =>
    unfold Rocket.applyDragLoop firstDragBody
    dsimp only
    by_cases hatm : b.hasAtmosphere = true
    · rw [if_pos hatm]
      by_cases halt : (Vec3.sub r.position b.position).length - b.radius < 3.0
      · have hcond : (if b.hasAtmosphere = true
              ∧ (Vec3.sub r.position b.position).length - b.radius < 3.0
            then some b else firstDragBody r rest) = some b := if_pos ⟨hatm, halt⟩
        rw [if_pos halt, hcond]
        unfold Rocket.dragForceFrom
        dsimp only
        split_ifs with hv
        · rfl
        · exact (Vec3.add_zero_right f).symm
      · rw [if_neg halt, if_neg (fun hc => halt hc.2)]
        exact ih
    · rw [if_neg hatm, if_neg (fun hc => hatm hc.1)]
      exact ih

/-- Claim C4, amended: on a tick where drag applies, exactly one body
contributes drag force, namely the **first body in iteration order** that has
an atmosphere and contains the rocket within its atmosphere height (the source
`break`s there) — not necessarily the closest such body. -/
theorem drag_single_source (bodies : List CelestialBody) (r : Rocket)
    (h1 : r.hasStarted = true) (h2 : r.hasCrashed = false) (h3 : bodies.isEmpty = false) :
    Rocket.applyDrag bodies r =
      { r with force :=
          (match firstDragBody r bodies with
           | none => r.force
           | some b => Vec3.add r.force (Rocket.dragForceFrom r b)) } := by
  unfold Rocket.applyDrag
  rw [if_neg (by simp [h1, h2]), if_neg (by simp [h3])]
  rw [applyDragLoop_spec]

/-- Witness for the amended C4 at the concrete two-body configuration. -/
theorem drag_single_source_witness :
    dragRocket.hasStarted = true ∧ dragRocket.hasCrashed = false ∧
    ([bodyA, bodyB] : List CelestialBody).isEmpty = false ∧
    Rocket.applyDrag [bodyA, bodyB] dragRocket =
      { dragRocket with force :=
          (match firstDragBody dragRocket [bodyA, bodyB] with
           | none => dragRocket.force
           | some b => Vec3.add dragRocket.force (Rocket.dragForceFrom dragRocket b)) } :=
  ⟨rfl, rfl, rfl, drag_single_source [bodyA, bodyB] dragRocket rfl rfl rfl⟩

/-- Counterexample to claim C4 as stated: with the rocket inside both
atmospheres, `bodyB` is strictly closer and atmospheric, yet the force applied
by `applyDrag` is not `bodyB`'s contribution — the loop took the farther
first-in-order `bodyA`. -/
theorem drag_closest_cex :
    (Vec3.sub dragRocket.position bodyB.position).length
        < (Vec3.sub dragRocket.position bodyA.position).length ∧
    bodyB.hasAtmosphere = true ∧
    (Vec3.sub dragRocket.position bodyB.position).length - bodyB.radius < 3.0 ∧
    (Rocket.applyDrag [bodyA, bodyB] dragRocket).force
      ≠ Vec3.add dragRocket.force (Rocket.dragForceFrom dragRocket bodyB) := by
  have lA : (Vec3.sub dragRocket.position bodyA.position).length = 2.8 := by
    show Vec3.length ⟨2.8 - 0, 0 - 0, 0 - 0⟩ = 2.8
    exact Vec3.length_eval _ _ _ 2.8 (by norm_num) (by norm_num)
  have lB : (Vec3.sub dragRocket.position bodyB.position).length = 0.7 := by
    show Vec3.length ⟨2.8 - 3.5, 0 - 0, 0 - 0⟩ = 0.7
    exact Vec3.length_eval _ _ _ 0.7 (by norm_num) (by norm_num)
  have hvlen : dragRocket.velocity.lengthSq = 1 := by
    show (1 : ℝ) * 1 + 0 * 0 + 0 * 0 = 1
    norm_num
  have hvnorm : dragRocket.velocity.normalize = ⟨1, 0, 0⟩ := by
    show Vec3.normalize ⟨1, 0, 0⟩ = ⟨1, 0, 0⟩
    unfold Vec3.normalize
    rw [Vec3.length_eval 1 0 0 1 (by norm_num) (by norm_num),
        if_neg (by norm_num : ¬ (1 : ℝ) = 0)]
    show (⟨1 / 1 * 1, 1 / 1 * 0, 1 / 1 * 0⟩ : Vec3) = ⟨1, 0, 0⟩
    norm_num
  have dA : Rocket.dragForceFrom dragRocket bodyA = ⟨-(0.005 * Real.exp (-1.8)), 0, 0⟩ := by
    unfold Rocket.dragForceFrom
    dsimp only
    rw [lA, hvlen, hvnorm, if_pos (by norm_num : (1 : ℝ) > 0.0001)]
    show Vec3.smul (-(0.005 * Real.exp (-(2.8 - 1) / (3.0 / 3)) * 1)) ⟨1, 0, 0⟩ = _
    rw [show (-(2.8 - 1) / (3.0 / 3) : ℝ) = -1.8 by norm_num]
    show (⟨-(0.005 * Real.exp (-1.8) * 1) * 1, -(0.005 * Real.exp (-1.8) * 1) * 0,
          -(0.005 * Real.exp (-1.8) * 1) * 0⟩ : Vec3) = _
    norm_num
  have dB : Rocket.dragForceFrom dragRocket bodyB = ⟨-(0.005 * Real.exp 0.3), 0, 0⟩ := by
    unfold Rocket.dragForceFrom
    dsimp only
    rw [lB, hvlen, hvnorm, if_pos (by norm_num : (1 : ℝ) > 0.0001)]
    show Vec3.smul (-(0.005 * Real.exp (-(0.7 - 1) / (3.0 / 3)) * 1)) ⟨1, 0, 0⟩ = _
    rw [show (-(0.7 - 1) / (3.0 / 3) : ℝ) = 0.3 by norm_num]
    show (⟨-(0.005 * Real.exp 0.3 * 1) * 1, -(0.005 * Real.exp 0.3 * 1) * 0,
          -(0.005 * Real.exp 0.3 * 1) * 0⟩ : Vec3) = _
    norm_num
  have hfd : firstDragBody dragRocket [bodyA, bodyB] = some bodyA := by
    unfold firstDragBody
    rw [if_pos ⟨rfl, by rw [lA]; norm_num [bodyA]⟩]
  have happly : (Rocket.applyDrag [bodyA, bodyB] dragRocket).force
      = Vec3.add dragRocket.force (Rocket.dragForceFrom dragRocket bodyA) := by
    unfold Rocket.applyDrag
    rw [if_neg (by norm_num [dragRocket, initializeRocket]), if_neg (by norm_num)]
    dsimp only
    rw [applyDragLoop_spec, hfd]
  refine ⟨by rw [lA, lB]; norm_num, rfl, by rw [lB]; norm_num [bodyB], ?_⟩
  rw [happly, dA, dB]
  intro heq
  have hx := congrArg Vec3.x heq
  simp only [Vec3.add] at hx
  have hfx : dragRocket.force.x = 0 := rfl
  rw [hfx] at hx
  norm_num at hx

/-- Claim C3 — orbit classification: given the closest body `cb` at distance
`minDistance`, the tick sets `isInOrbit` exactly when the altitude exceeds the
body-dependent minimum, the speed lies strictly between `0.8 ×` the circular
orbit velocity and `0.9 ×` the escape velocity at the current distance, and the
normalized position/velocity dot product has absolute value below `0.5`; when
in orbit the period is `sqrt((4π²/(G·M))·minDistance³)`, otherwise it is
`0`. -/
theorem orbit_classification (bodies : List CelestialBody) (r : Rocket)
    (cb : CelestialBody) (minDistance : ℝ)
    (hscan : scanClosest r.position bodies = some (cb, minDistance)) :
    ((Rocket.calculateOrbitPeriod bodies r).1.isInOrbit = true ↔
      (minDistance - cb.radius > (if cb.name = "Earth" then (2.0 : ℝ) else 1.0) ∧
       r.velocity.length > Real.sqrt (r.G * scaledMassOfName cb.name / minDistance) * 0.8 ∧
       r.velocity.length < Real.sqrt (2 * r.G * scaledMassOfName cb.name / minDistance) * 0.9 ∧
       |Vec3.dot ((Vec3.sub r.position cb.position).normalize) (r.velocity.normalize)| < 0.5)) ∧
    ((Rocket.calculateOrbitPeriod bodies r).1.isInOrbit = true →
      (Rocket.calculateOrbitPeriod bodies r).1.orbitPeriod
        = Real.sqrt (4 * Real.pi * Real.pi / (r.G * scaledMassOfName cb.name)
            * minDistance ^ 3)) ∧
    ((Rocket.calculateOrbitPeriod bodies r).1.isInOrbit = false →
      (Rocket.calculateOrbitPeriod bodies r).1.orbitPeriod = 0) := by
  unfold Rocket.calculateOrbitPeriod
  rw [hscan]
  dsimp only
  by_cases h1 : minDistance - cb.radius > (if cb.name = "Earth" then (2.0 : ℝ) else 1.0)
      ∧ r.velocity.length > Real.sqrt (r.G * scaledMassOfName cb.name / minDistance) * 0.8
      ∧ r.velocity.length < Real.sqrt (2 * r.G * scaledMassOfName cb.name / minDistance) * 0.9
  · rw [if_pos h1]
    by_cases h2 : |Vec3.dot ((Vec3.sub r.position cb.position).normalize)
        (r.velocity.normalize)| < 0.5
    · rw [if_pos h2]
      exact ⟨iff_of_true rfl ⟨h1.1, h1.2.1, h1.2.2, h2⟩, fun _ => rfl,
        fun hc => absurd hc (by simp)⟩
    · rw [if_neg h2]
      exact ⟨iff_of_false (by simp [notInOrbit]) (fun hc => h2 hc.2.2.2),
        fun hc => absurd hc (by simp [notInOrbit]), fun _ => rfl⟩
  · rw [if_neg h1]
    exact ⟨iff_of_false (by simp [notInOrbit]) (fun hc => h1 ⟨hc.1, hc.2.1, hc.2.2.1⟩),
      fun hc => absurd hc (by simp [notInOrbit]), fun _ => rfl⟩

/-- Witness for C3 at Scenario C of the spec: distance 6 from an Earth-like
body, purely tangential velocity of exactly the circular orbit velocity
`sqrt(0.3·3/6) = sqrt 0.15` — the tick reports a stable orbit with the
Kepler period `sqrt((4π²/(0.3·3))·6³)`. -/
theorem orbit_classification_witness :
    scanClosest scenarioCRocket.position [earthBody] = some (earthBody, 6) ∧
    (Rocket.calculateOrbitPeriod [earthBody] scenarioCRocket).1.isInOrbit = true ∧
    (Rocket.calculateOrbitPeriod [earthBody] scenarioCRocket).1.orbitPeriod
      = Real.sqrt (4 * Real.pi * Real.pi / (0.3 * 3) * 6 ^ 3) := by
  have hsp : 0 < Real.sqrt 0.15 := Real.sqrt_pos.mpr (by norm_num)
  have hl6 : (Vec3.sub scenarioCRocket.position earthBody.position).length = 6 := by
    show Vec3.length ⟨6 - 0, 0 - 0, 0 - 0⟩ = 6
    exact Vec3.length_eval _ _ _ 6 (by norm_num) (by norm_num)
  have hscan : scanClosest scenarioCRocket.position [earthBody] = some (earthBody, 6) := by
    unfold scanClosest
    dsimp only [List.foldl]
    rw [hl6]
  have hl : Vec3.length ⟨(0 : ℝ), Real.sqrt 0.15, 0⟩ = Real.sqrt 0.15 := by
    unfold Vec3.length Vec3.lengthSq
    dsimp only
    rw [show (0 : ℝ) * 0 + Real.sqrt 0.15 * Real.sqrt 0.15 + 0 * 0
          = Real.sqrt 0.15 * Real.sqrt 0.15 by ring,
        Real.mul_self_sqrt (by norm_num : (0 : ℝ) ≤ 0.15)]
  have hspeed : scenarioCRocket.velocity.length = Real.sqrt 0.15 := hl
  have hG : scenarioCRocket.G = 0.3 := rfl
  have hM : scaledMassOfName earthBody.name = 3 := by
    unfold scaledMassOfName
    rw [if_pos (show earthBody.name = "Earth" from rfl)]
  have hiff := orbit_classification [earthBody] scenarioCRocket earthBody 6 hscan
  have c1 : (6 : ℝ) - earthBody.radius > (if earthBody.name = "Earth" then (2.0 : ℝ) else 1.0) := by
    rw [if_pos (show earthBody.name = "Earth" from rfl)]
    show (6 : ℝ) - 2 > 2.0
    norm_num
  have c2 : scenarioCRocket.velocity.length
      > Real.sqrt (scenarioCRocket.G * scaledMassOfName earthBody.name / 6) * 0.8 := by
    rw [hspeed, hG, hM, show (0.3 * 3 / 6 : ℝ) = 0.15 by norm_num]
    linarith
  have c3 : scenarioCRocket.velocity.length
      < Real.sqrt (2 * scenarioCRocket.G * scaledMassOfName earthBody.name / 6) * 0.9 := by
    rw [hspeed, hG, hM, show (2 * 0.3 * 3 / 6 : ℝ) = 0.3 by norm_num,
        show (0.9 : ℝ) = Real.sqrt 0.81 by
          rw [show (0.81 : ℝ) = 0.9 ^ 2 by norm_num, Real.sqrt_sq (by norm_num : (0 : ℝ) ≤ 0.9)],
        ← Real.sqrt_mul (by norm_num : (0 : ℝ) ≤ 0.3),
        show (0.3 * 0.81 : ℝ) = 0.243 by norm_num]
    exact Real.sqrt_lt_sqrt (by norm_num) (by norm_num)
  have hposn : (Vec3.sub scenarioCRocket.position earthBody.position).normalize = ⟨1, 0, 0⟩ := by
    show Vec3.normalize ⟨6 - 0, 0 - 0, 0 - 0⟩ = ⟨1, 0, 0⟩
    unfold Vec3.normalize
    rw [Vec3.length_eval (6 - 0) (0 - 0) (0 - 0) 6 (by norm_num) (by norm_num),
        if_neg (by norm_num : ¬(6 : ℝ) = 0)]
    show (⟨1 / 6 * (6 - 0), 1 / 6 * (0 - 0), 1 / 6 * (0 - 0)⟩ : Vec3) = ⟨1, 0, 0⟩
    norm_num
  have hveln : scenarioCRocket.velocity.normalize = ⟨0, 1, 0⟩ := by
    show Vec3.normalize ⟨0, Real.sqrt 0.15, 0⟩ = ⟨0, 1, 0⟩
    unfold Vec3.normalize
    rw [hl, if_neg (ne_of_gt hsp)]
    show (⟨1 / Real.sqrt 0.15 * 0, 1 / Real.sqrt 0.15 * Real.sqrt 0.15,
           1 / Real.sqrt 0.15 * 0⟩ : Vec3) = ⟨0, 1, 0⟩
    simp
    exact inv_mul_cancel₀ (ne_of_gt hsp)
  have c4 : |Vec3.dot ((Vec3.sub scenarioCRocket.position earthBody.position).normalize)
      (scenarioCRocket.velocity.normalize)| < 0.5 := by
    rw [hposn, hveln]
    show |(1 : ℝ) * 0 + 0 * 1 + 0 * 0| < 0.5
    norm_num
  have hin : (Rocket.calculateOrbitPeriod [earthBody] scenarioCRocket).1.isInOrbit = true :=
    hiff.1.mpr ⟨c1, c2, c3, c4⟩
  refine ⟨hscan, hin, ?_⟩
  rw [hiff.2.1 hin, hG, hM]

/-- Claim C5, amended: under JavaScript number semantics, a gravity query at
distance exactly `0` (query position equal to the body's center) returns the
vector `(NaN, NaN, NaN)` — not the zero vector: `normalize` leaves the zero
direction, the magnitude `G·M·m / 0` is `±Infinity` (or `NaN` for `m = 0`),
and `0 * ±Infinity = NaN` in each component.  Callers must guard. -/
theorem gravity_zero_distance_nan (b : CelestialBodyJS) (px py pz m : ℝ)
    (hb : b.position = ⟨JSNum.fin px, JSNum.fin py, JSNum.fin pz⟩) :
    CelestialBodyJS.calculateGravityForce b ⟨JSNum.fin px, JSNum.fin py, JSNum.fin pz⟩
      (JSNum.fin m) = ⟨JSNum.nan, JSNum.nan, JSNum.nan⟩ := by
  have hdir : JSVec3.sub ⟨JSNum.fin px, JSNum.fin py, JSNum.fin pz⟩
      ⟨JSNum.fin px, JSNum.fin py, JSNum.fin pz⟩
      = ⟨JSNum.fin 0, JSNum.fin 0, JSNum.fin 0⟩ := by
    simp [JSVec3.sub, JSNum.sub]
  have hzero : JSVec3.length ⟨JSNum.fin 0, JSNum.fin 0, JSNum.fin 0⟩ = JSNum.fin 0 := by
    simp [JSVec3.length, JSNum.mul, JSNum.add, JSNum.sqrt, Real.sqrt_zero]
  have hnorm : JSVec3.normalize ⟨JSNum.fin 0, JSNum.fin 0, JSNum.fin 0⟩
      = ⟨JSNum.fin 0, JSNum.fin 0, JSNum.fin 0⟩ := by
    simp [JSVec3.normalize, hzero, JSNum.orDefault, JSNum.truthy, JSNum.div,
      JSVec3.multiplyScalar, JSNum.mul]
  unfold CelestialBodyJS.calculateGravityForce
  rw [hb]
  dsimp only
  rw [hdir, hzero, hnorm]
  have hden : JSNum.mul (JSNum.fin 0) (JSNum.fin 0) = JSNum.fin 0 := by
    simp [JSNum.mul]
  have hnum : JSNum.mul (JSNum.mul (JSNum.fin 0.3) (JSNum.fin (scaledMassOfName b.name)))
      (JSNum.fin m) = JSNum.fin (0.3 * scaledMassOfName b.name * m) := by
    simp [JSNum.mul]
  rw [hden, hnum]
  have hmult : ∃ t : ℝ, 0 < t ∧
      (if JSNum.lt (JSNum.sub (JSNum.fin 0) (JSNum.fin b.radius)) (JSNum.fin 1) = true
       then JSNum.add (JSNum.fin 1)
         (JSNum.mul (JSNum.sub (JSNum.fin 1) (JSNum.sub (JSNum.fin 0) (JSNum.fin b.radius)))
           (JSNum.fin 0.5))
       else JSNum.fin 1) = JSNum.fin t := by
    by_cases hr : -b.radius < 1
    · refine ⟨1 + (1 + b.radius) * 0.5, by linarith, ?_⟩
      rw [if_pos (by simpa [JSNum.lt, JSNum.sub] using hr)]
      simp only [JSNum.add, JSNum.mul, JSNum.sub, JSNum.fin.injEq]
      ring
    · exact ⟨1, by norm_num, by rw [if_neg (by simpa [JSNum.lt, JSNum.sub] using hr)]⟩
  obtain ⟨t, ht, hT⟩ := hmult
  rw [hT]
  rcases lt_trichotomy (0.3 * scaledMassOfName b.name * m) 0 with hA | hA | hA
  · have hdiv : JSNum.div (JSNum.fin (0.3 * scaledMassOfName b.name * m)) (JSNum.fin 0)
        = JSNum.ninf := by
      unfold JSNum.div
      dsimp only
      rw [if_neg (by simp), if_neg (not_lt.mpr hA.le), if_pos hA]
    have hm2 : JSNum.mul JSNum.ninf (JSNum.fin t) = JSNum.ninf := by
      simp [JSNum.mul, ht]
    rw [hdiv, hm2]
    norm_num [JSVec3.multiplyScalar, JSNum.mul]
  · have hdiv : JSNum.div (JSNum.fin (0.3 * scaledMassOfName b.name * m)) (JSNum.fin 0)
        = JSNum.nan := by
      unfold JSNum.div
      dsimp only
      rw [if_neg (by simp), if_neg (by rw [hA]; exact lt_irrefl 0),
          if_neg (by rw [hA]; exact lt_irrefl 0)]
    have hm2 : JSNum.mul JSNum.nan (JSNum.fin t) = JSNum.nan := by
      simp [JSNum.mul]
    rw [hdiv, hm2]
    norm_num [JSVec3.multiplyScalar, JSNum.mul]
  · have hdiv : JSNum.div (JSNum.fin (0.3 * scaledMassOfName b.name * m)) (JSNum.fin 0)
        = JSNum.inf := by
      unfold JSNum.div
      dsimp only
      rw [if_neg (by simp), if_pos hA]
    have hm2 : JSNum.mul JSNum.inf (JSNum.fin t) = JSNum.inf := by
      simp [JSNum.mul, ht]
    rw [hdiv, hm2]
    norm_num [JSVec3.multiplyScalar, JSNum.mul]

/-- Counterexample to claim C5 as stated: querying gravity exactly at the
center of the Earth fixture does **not** return the zero vector — every
component is `NaN` under JavaScript arithmetic (`1.8 / 0 = Infinity`, then
`0 * Infinity = NaN`). -/
theorem gravity_zero_distance_cex :
    CelestialBodyJS.calculateGravityForce earthBodyJS
        ⟨JSNum.fin 0, JSNum.fin 0, JSNum.fin 0⟩ (JSNum.fin 2)
      ≠ ⟨JSNum.fin 0, JSNum.fin 0, JSNum.fin 0⟩ ∧
    (CelestialBodyJS.calculateGravityForce earthBodyJS
        ⟨JSNum.fin 0, JSNum.fin 0, JSNum.fin 0⟩ (JSNum.fin 2)).x = JSNum.nan := by
  have hval : CelestialBodyJS.calculateGravityForce earthBodyJS
      ⟨JSNum.fin 0, JSNum.fin 0, JSNum.fin 0⟩ (JSNum.fin 2)
      = ⟨JSNum.nan, JSNum.nan, JSNum.nan⟩ := by
    norm_num [CelestialBodyJS.calculateGravityForce, earthBodyJS, JSVec3.sub,
      JSVec3.length, JSVec3.normalize, JSVec3.multiplyScalar, JSNum.sub, JSNum.add,
      JSNum.mul, JSNum.div, JSNum.sqrt, JSNum.lt, JSNum.orDefault, JSNum.truthy,
      scaledMassOfName, Real.sqrt_zero]
  refine ⟨?_, by rw [hval]⟩
  rw [hval]
  intro hcon
  injection hcon with hx _
  exact JSNum.noConfusion hx

/-- Witness for the amended C5 at the concrete Earth fixture. -/
theorem gravity_zero_distance_nan_witness :
    earthBodyJS.position = ⟨JSNum.fin 0, JSNum.fin 0, JSNum.fin 0⟩ ∧
    CelestialBodyJS.calculateGravityForce earthBodyJS
        ⟨JSNum.fin 0, JSNum.fin 0, JSNum.fin 0⟩ (JSNum.fin 2)
      = ⟨JSNum.nan, JSNum.nan, JSNum.nan⟩ :=
  ⟨rfl, gravity_zero_distance_nan earthBodyJS 0 0 0 2 rfl⟩

end
